import Mathlib

/-!
Shallow embedding of `src/main.go` of magic-bear/go_to_sheets.

The program, per loader, runs a SQL query, converts the cursor into a
header-prefixed grid, and sends one batch-update write to a spreadsheet.
We embed:
  * the scan/convert loop of `main` (lines 128-163) as `convert`;
  * the per-loader loop of `main` (lines 119-177) as `runLoop`, with Go's
    `defer` semantics made explicit (deferred `rows.Close()` calls run at
    function exit, LIFO; `log.Fatal` calls `os.Exit` and skips them; a
    panic runs them while unwinding);
  * the credential cache (`tokenFromFile`, `saveToken`, `getClient`,
    lines 22-74) over an explicit file-system map with a small JSON AST
    standing for `encoding/json`.
-/

set_option autoImplicit false

namespace GoToSheets

/-- Go `interface\x7b\x7d` cell values that `database/sql` `Scan` can place into
`values[i]` in `main`: strings, raw byte slices, integers, booleans and SQL
NULL (`nil`). -/
inductive GoVal where
  | str (s : String)
  | bytes (b : List UInt8)
  | int (n : Int)
  | bool (b : Bool)
  | null
deriving DecidableEq, Repr

/-- Go's `string(b)` conversion of a `[]byte` value, as used at line 153.
Modelled as UTF-8 decoding of the byte list (invalid sequences, which Go
would keep verbatim inside its byte-string type, fall back to `""`; no
claim depends on invalid input). -/
def goStringOfBytes (b : List UInt8) : String :=
  (String.fromUTF8? (ByteArray.mk (Array.mk b))).getD ""

/-- The per-cell type switch of `main`, lines 150-156: a `[]byte` value is
converted with `string(b)`; every other value (`nil` included) is passed
through unchanged into the grid. -/
def convertCell (val : GoVal) : GoVal :=
  match val with
  | GoVal.bytes b => GoVal.str (goStringOfBytes b)
  | v => v

/-- Outcome of one `rows.Scan(valuePtrs...)` call (line 143): success with
the scanned values, the sentinel `sql.ErrNoRows`, or any other error. -/
inductive ScanOutcome where
  | ok (vals : List GoVal)
  | errNoRows
  | errOther (msg : String)
deriving DecidableEq, Repr

/-- A `*sql.Rows` cursor: the column-name list reported by `rows.Columns()`
(line 128; its error is discarded by the source) and the finite sequence of
scan outcomes that `rows.Next()`/`rows.Scan` yield. A successful scan into
`valuePtrs` (length `count = len(columns)`) fills exactly `count` values,
so well-formed cursors have `vals.length = columns.length` in every
`ScanOutcome.ok`. -/
structure Cursor where
  columns : List String
  rows : List ScanOutcome
deriving DecidableEq, Repr

/-- The inner loop of lines 147-158: `for i, _ := range columns` reads
`values[i]` and appends the converted cell to the fresh row `x`. Indexing
is over column positions, exactly as in the source; on a well-formed
cursor `values` has length `count` so the `getD` default is never used. -/
def convertRow (count : Nat) (values : List GoVal) : List GoVal :=
  (List.range count).map (fun i => convertCell (values.getD i GoVal.null))

/-- The `for rows.Next()` loop of lines 138-163, carrying the accumulator
`sheetValues`. `sql.ErrNoRows` hits `panic("something went wrong..")`
(line 145) and any other scan error hits `panic("row scan failure")`
(line 161); both are modelled as `Except.error` carrying the panic
message. -/
def scanLoop (count : Nat) : List ScanOutcome → List (List GoVal) →
    Except String (List (List GoVal))
  | [], acc => Except.ok acc
  | r :: rest, acc =>
    match r with
    | ScanOutcome.errNoRows => Except.error "something went wrong.."
    | ScanOutcome.ok vals => scanLoop count rest (acc ++ [convertRow count vals])
    | ScanOutcome.errOther _ => Except.error "row scan failure"

/-- Lines 128-163 as a whole: the header row is the column-name list
(lines 129-133), prepended as `sheetValues := [][]interface\x7b\x7d{headers}`,
then the scan loop appends one converted row per cursor row. -/
def convert (cur : Cursor) : Except String (List (List GoVal)) :=
  scanLoop cur.columns.length cur.rows [cur.columns.map GoVal.str]

/-- Rendering of the amended cell contract (spec 4.3 step 2 as corrected by
the counterexample): a raw byte sequence is decoded as UTF-8 text,
otherwise the value is taken as-is. Stated separately from `convertCell`
so that the refinement theorem compares the source's index-driven loop
against this per-cell map. -/
def specCellRender (v : GoVal) : GoVal :=
  match v with
  | GoVal.bytes b => GoVal.str (goStringOfBytes b)
  | w => w

/-! ### Credential store: JSON, tokens, files -/

/-- Minimal JSON value AST standing for what `encoding/json` reads and
writes for the token cache file. -/
inductive Json where
  | str (s : String)
  | num (n : Int)
  | obj (fields : List (String × Json))
  | null

/-- The four persisted fields of `oauth2.Token` with their JSON tags
`access_token`, `token_type`, `refresh_token`, `expiry`. The expiry is
carried as its RFC3339 text form, which is what the JSON file stores. -/
structure Token where
  accessToken : String
  tokenType : String
  refreshToken : String
  expiry : String
deriving DecidableEq, Repr

/-- `json.NewEncoder(f).Encode(token)` (line 73): the token marshals to an
object with the four tagged fields. -/
def encodeToken (t : Token) : Json :=
  Json.obj
    [("access_token", Json.str t.accessToken),
     ("token_type", Json.str t.tokenType),
     ("refresh_token", Json.str t.refreshToken),
     ("expiry", Json.str t.expiry)]

/-- Reading one string-typed field during unmarshalling: a missing key
leaves the struct field at its zero value `""`; a key bound to a
non-string JSON value is an unmarshal type error. -/
def jsonStringField (fields : List (String × Json)) (key : String) :
    Except String String :=
  match fields.lookup key with
  | none => Except.ok ""
  | some (Json.str s) => Except.ok s
  | some _ => Except.error "cannot unmarshal"

/-- `json.NewDecoder(f).Decode(t)` into an `oauth2.Token` (line 61):
decodes the four tagged fields from a JSON object; any non-object value is
a decode error. -/
def decodeToken (j : Json) : Except String Token :=
  match j with
  | Json.obj fields => do
    let a ← jsonStringField fields "access_token"
    let ty ← jsonStringField fields "token_type"
    let r ← jsonStringField fields "refresh_token"
    let e ← jsonStringField fields "expiry"
    Except.ok (Token.mk a ty r e)
  | _ => Except.error "cannot unmarshal"

/-- Contents of a file on disk, at the abstraction `encoding/json` sees:
either contents that parse as a JSON value, or contents that do not. -/
inductive FileData where
  | jsonData (j : Json)
  | rawData (s : String)

/-- The local file system as a path-to-contents association list; a write
shadows earlier entries for the same path. -/
def FS : Type := List (String × FileData)

/-- `os.Create` followed by an encoder write: creates or truncates the
file at `path` with data `d`. -/
def fsWrite (fs : FS) (path : String) (d : FileData) : FS :=
  (path, d) :: fs

/-- Errors `tokenFromFile` can report: `os.Open` failing because the file
is absent, or the JSON decode failing. -/
inductive LoadErr where
  | notFound
  | parseFailed
deriving DecidableEq, Repr

/-- `tokenFromFile` (lines 55-64): open the file (error if absent), then
JSON-decode a token from it (error if the contents are not credential
JSON). -/
def tokenFromFile (fs : FS) (path : String) : Except LoadErr Token :=
  match List.lookup path fs with
  | none => Except.error LoadErr.notFound
  | some (FileData.rawData _) => Except.error LoadErr.parseFailed
  | some (FileData.jsonData j) =>
    match decodeToken j with
    | Except.error _ => Except.error LoadErr.parseFailed
    | Except.ok t => Except.ok t

/-- `saveToken` (lines 66-74): create/truncate the file and JSON-encode
the token into it. (The `os.Create` failure branch calls `log.Fatalf`; the
file-system model has no permission failures, matching every run the
claims quantify over.) -/
def saveToken (fs : FS) (path : String) (t : Token) : FS :=
  fsWrite fs path (FileData.jsonData (encodeToken t))

/-- The fixed cache path of `getClient`, line 25. -/
def cacheFile : String := "./cache.json"

/-- `getClient` (lines 24-32): try the cache; on any load error run the
interactive web flow (modelled by the `web` token the operator exchange
would produce) and persist its result; return the token the HTTP client
is built from, whether the interactive prompt ran, and the resulting file
system. -/
def getClient (fs : FS) (web : Token) : Token × Bool × FS :=
  match tokenFromFile fs cacheFile with
  | Except.ok tok => (tok, false, fs)
  | Except.error _ => (web, true, saveToken fs cacheFile web)

/-- The authenticated HTTP client returned by `config.Client`: it holds
the token in memory. -/
structure Client where
  tok : Token
deriving DecidableEq, Repr

/-- Modelled from the spec: the oauth2 transport's silent refresh
(spec 4.2) mints a new access token in memory using the refresh token; the
transport does not know the cache path and touches no file. The library
code is outside this repository; this is its file-frame behavior. -/
def refreshAccess (c : Client) (newAccess : String) : Client :=
  Client.mk (Token.mk newAccess c.tok.tokenType c.tok.refreshToken c.tok.expiry)

/-- One run's credential activity: obtain the client via `getClient`, then
optionally perform a silent refresh during a later request. Returns the
final client, whether the operator was prompted, and the final file
system. -/
def runSession (fs : FS) (web : Token) (refreshed : Option String) :
    Client × Bool × FS :=
  match getClient fs web with
  | (tok, interacted, fs2) =>
    let c := Client.mk tok
    let c2 := match refreshed with
      | none => c
      | some a => refreshAccess c a
    (c2, interacted, fs2)

/-! ### The loader runner -/

/-- Observable events of the loader loop of `main` (lines 119-177):
loader start (the `log.Infof` at line 120), obtaining a cursor from
`db.Query` (line 125), the batch-update write with its destination sheet,
range and grid (lines 165-172), and a `rows.Close()` executing (the
deferred call from line 126). Cursors are numbered by loop iteration. -/
inductive Event where
  | loaderStart (name : String)
  | cursorOpened (idx : Nat)
  | cursorClosed (idx : Nat)
  | writeSent (sheet : String) (rangeData : String) (grid : List (List GoVal))
deriving DecidableEq, Repr

/-- How the process ends: normal return from `main`, `log.Fatal`
(`os.Exit(1)`, skipping deferred calls), or a runtime panic (deferred
calls run while unwinding, then the process dies). -/
inductive Outcome where
  | ok
  | fatal (msg : String)
  | panicked (msg : String)
deriving DecidableEq, Repr

/-- `viper.GetString`: a missing key yields the zero value `""`. -/
def getString (cfg : List (String × String)) (key : String) : String :=
  (List.lookup key cfg).getD ""

/-- The world the loop runs against: the viper configuration, the database
(`db.Query` by query text, `none` when the query errors — the source
discards that error at line 125, leaving a nil `rows`), and the remote
write (`some msg` when `BatchUpdate ... Do()` returns an error). -/
structure Env where
  cfg : List (String × String)
  queryDb : String → Option Cursor
  write : String → String → List (List GoVal) → Option String

/-- The `for loader := range loaders` loop (lines 119-177) over one
iteration order of the loader map, with `main`'s defer stack `deferred`
(most recent first) carried explicitly.

Per iteration: read `loaders.<name>.sheet`, but — line 122 — read the
range from the fixed key `"loaders.ulta.range"`; query (a failed query
leaves a nil cursor whose first use, `rows.Columns()`, panics with a nil
pointer dereference, and unwinding then runs the deferred closes, the nil
one itself panicking, so no close event is recorded for it); convert (a
conversion panic unwinds, running all deferred closes); write (an error
hits `log.Fatal`, which exits without running any deferred close);
otherwise continue. After the last iteration `main` returns and the
deferred closes run, LIFO. -/
def runLoop (env : Env) : List String → Nat → List Nat → List Event × Outcome
  | [], _, deferred => (deferred.map Event.cursorClosed, Outcome.ok)
  | name :: rest, idx, deferred =>
    let sheet := getString env.cfg ("loaders." ++ name ++ ".sheet")
    let rangeData := getString env.cfg "loaders.ulta.range"
    match env.queryDb (getString env.cfg ("loaders." ++ name ++ ".query")) with
    | none =>
      ([Event.loaderStart name] ++ deferred.map Event.cursorClosed,
        Outcome.panicked "invalid memory address or nil pointer dereference")
    | some cur =>
      match convert cur with
      | Except.error msg =>
        ([Event.loaderStart name, Event.cursorOpened idx]
            ++ (idx :: deferred).map Event.cursorClosed,
          Outcome.panicked msg)
      | Except.ok grid =>
        match env.write sheet rangeData grid with
        | some errMsg =>
          ([Event.loaderStart name, Event.cursorOpened idx,
              Event.writeSent sheet rangeData grid],
            Outcome.fatal errMsg)
        | none =>
          let r := runLoop env rest (idx + 1) (idx :: deferred)
          ([Event.loaderStart name, Event.cursorOpened idx,
              Event.writeSent sheet rangeData grid] ++ r.1, r.2)

/-- `main`'s loader phase, starting with an empty defer stack. -/
def runMain (env : Env) (names : List String) : List Event × Outcome :=
  runLoop env names 0 []

/-- Destination ranges of the write requests in a trace, in order. -/
def writeRanges (evs : List Event) : List String :=
  evs.filterMap (fun e =>
    match e with
    | Event.writeSent _ r _ => some r
    | _ => none)

/-! ### Concrete environments used to evaluate the code at failing inputs -/

/-- Configuration with two loaders, `foo` and `ulta`, each with its own
sheet, range and query. -/
def cfg1 : List (String × String) :=
  [("loaders.foo.sheet", "sheetFoo"), ("loaders.foo.range", "Foo!A1:B2"),
   ("loaders.foo.query", "select f"),
   ("loaders.ulta.sheet", "sheetUlta"), ("loaders.ulta.range", "Ulta!A1:B2"),
   ("loaders.ulta.query", "select u")]

/-- A one-column, one-row cursor that scans cleanly. -/
def cur1 : Cursor :=
  Cursor.mk ["n"] [ScanOutcome.ok [GoVal.int 1]]

/-- Environment for the range-key claim: every query succeeds with `cur1`
and every write is accepted. -/
def env1 : Env :=
  Env.mk cfg1 (fun _ => some cur1) (fun _ _ _ => none)

/-- Configuration for loaders `a` and `b`. -/
def cfg2 : List (String × String) :=
  [("loaders.a.sheet", "sheetA"), ("loaders.a.range", "A!A1"),
   ("loaders.a.query", "select a"),
   ("loaders.b.sheet", "sheetB"), ("loaders.b.range", "B!A1"),
   ("loaders.b.query", "select b"),
   ("loaders.ulta.range", "Ulta!A1:B2")]

/-- Environment in which loader `b`'s remote write is rejected and loader
`a`'s is accepted. -/
def env2 : Env :=
  Env.mk cfg2 (fun _ => some cur1)
    (fun sheet _ _ => if sheet = "sheetB" then some "write rejected" else none)

/-- A cursor whose second scan reports a row-decode error mid-stream. -/
def cur3 : Cursor :=
  Cursor.mk ["n"] [ScanOutcome.ok [GoVal.int 1], ScanOutcome.errOther "bad row"]

/-- Configuration for loaders `c` and `d`. -/
def cfg3 : List (String × String) :=
  [("loaders.c.sheet", "sheetC"), ("loaders.c.range", "C!A1"),
   ("loaders.c.query", "select c"),
   ("loaders.d.sheet", "sheetD"), ("loaders.d.range", "D!A1"),
   ("loaders.d.query", "select d"),
   ("loaders.ulta.range", "Ulta!A1:B2")]

/-- Environment in which loader `c`'s cursor hits a mid-stream scan error;
loader `d` is healthy. -/
def env3 : Env :=
  Env.mk cfg3 (fun q => if q = "select c" then some cur3 else some cur1)
    (fun _ _ _ => none)

/-- Configuration for loaders `p` and `q`. -/
def cfg4 : List (String × String) :=
  [("loaders.p.sheet", "sheetP"), ("loaders.p.range", "P!A1"),
   ("loaders.p.query", "select p"),
   ("loaders.q.sheet", "sheetQ"), ("loaders.q.range", "Q!A1"),
   ("loaders.q.query", "select q"),
   ("loaders.ulta.range", "Ulta!A1:B2")]

/-- Environment in which both loaders succeed end to end. -/
def env4 : Env :=
  Env.mk cfg4 (fun _ => some cur1) (fun _ _ _ => none)

/-! ### Theorems -/

/-- Helper: the scan loop over error-free outcomes appends one converted
row per scanned row to the accumulator. -/
theorem scanLoop_all_ok (count : Nat) (rs : List (List GoVal))
    (acc : List (List GoVal)) :
    scanLoop count (rs.map ScanOutcome.ok) acc =
      Except.ok (acc ++ rs.map (convertRow count)) := by
  induction rs generalizing acc with
  | nil => simp [scanLoop]
  | cons v rest ih => simp [scanLoop, ih]

/-- Helper: a converted row always has exactly `count` cells, because the
inner loop runs over the column indices. -/
theorem convertRow_length (count : Nat) (values : List GoVal) :
    (convertRow count values).length = count := by
  simp [convertRow]

/-- Helper: when the scanned value buffer has exactly the column count,
the index-driven inner loop is the per-cell map of `convertCell`. -/
theorem convertRow_eq_map (values : List GoVal) :
    convertRow values.length values = values.map convertCell := by
  induction values with
  | nil => rfl
  | cons v vs ih =>
    simp only [convertRow, List.length_cons, List.range_succ_eq_map,
      List.map_cons, List.map_map, Function.comp, List.getD_cons_zero,
      List.getD_cons_succ]
    exact congrArg (convertCell v :: ·) ih

/-- Helper: the source's type switch and the spec's cell-rendering rule
agree on every value. -/
theorem convertCell_eq_spec (v : GoVal) : convertCell v = specCellRender v := by
  cases v <;> rfl

/-- Helper: decoding an encoded token restores all four fields. -/
theorem decode_encode_token (t : Token) :
    decodeToken (encodeToken t) = Except.ok t := by
  cases t
  rfl

/-- C1: evaluation of the loader loop at a loader named `foo` whose own
configured range is `Foo!A1:B2`: the single write request it sends uses
`Ulta!A1:B2`, the range of the unrelated loader `ulta` (line 122 reads the
fixed key `loaders.ulta.range`), not `foo`'s own configured range. This
refutes the claim on the code: the destination range is read from another
loader's configuration. -/
theorem C1_ulta_range_used :
    writeRanges (runMain env1 ["foo"]).1 = ["Ulta!A1:B2"] ∧
    getString cfg1 "loaders.foo.range" = "Foo!A1:B2" ∧
    ("Ulta!A1:B2" : String) ≠ "Foo!A1:B2" := by
  refine ⟨rfl, rfl, ?_⟩
  decide

/-- C2: evaluation of a batch `[b, a]` in which loader `b`'s remote write
is rejected: the process terminates through `log.Fatal` on `b`'s failure
and loader `a` is never started, refuting the claim that the runner still
attempts every other loader in the batch. -/
theorem C2_fatal_stops_batch :
    (runMain env2 ["b", "a"]).2 = Outcome.fatal "write rejected" ∧
    Event.loaderStart "b" ∈ (runMain env2 ["b", "a"]).1 ∧
    Event.loaderStart "a" ∉ (runMain env2 ["b", "a"]).1 := by
  refine ⟨rfl, ?_, ?_⟩ <;> decide

/-- C5: a cursor yielding zero data rows converts without error to the
grid holding only the header row — an empty result set is not an error in
the code: the `sql.ErrNoRows` branch is unreachable when `rows.Next()` is
immediately false. -/
theorem C5_empty_result_ok (cols : List String) :
    convert (Cursor.mk cols []) = Except.ok [cols.map GoVal.str] := rfl

/-- C6: evaluation at a cursor whose second scan reports a row-decode
error: the conversion does fail (with the `row scan failure` panic
message), but the failure is a panic that kills the whole process — the
batch outcome is `panicked` and the following loader `d` is never started,
refuting the part of the claim that says only the current loader's run is
aborted. -/
theorem C6_scan_error_is_process_fatal :
    convert cur3 = Except.error "row scan failure" ∧
    (runMain env3 ["c", "d"]).2 = Outcome.panicked "row scan failure" ∧
    Event.loaderStart "d" ∉ (runMain env3 ["c", "d"]).1 := by
  refine ⟨rfl, rfl, ?_⟩
  decide

/-- C9: evaluation of a two-loader batch in which everything succeeds:
because line 126 defers `rows.Close()` inside the loop, the first
loader's cursor is closed only when `main` returns — after the second
loader has already started — so the cursor is not closed on the loader's
own exit path before the runner moves on. -/
theorem C9_cursor_left_open_across_loaders :
    Event.cursorClosed 0 ∈ (runMain env4 ["p", "q"]).1 ∧
    (runMain env4 ["p", "q"]).1.indexOf (Event.loaderStart "q") <
      (runMain env4 ["p", "q"]).1.indexOf (Event.cursorClosed 0) := by
  refine ⟨?_, ?_⟩ <;> decide

/-- C3: for a cursor with column list `cols` (C columns) and `R` cleanly
scanned data rows, the conversion succeeds and yields a grid of exactly
`R + 1` rows, whose row 0 is the column-name header and whose every row —
header included — has length exactly C. -/
theorem C3_grid_shape (cols : List String) (rs : List (List GoVal)) :
    ∃ g, convert (Cursor.mk cols (rs.map ScanOutcome.ok)) = Except.ok g ∧
      g.length = rs.length + 1 ∧
      g.head? = some (cols.map GoVal.str) ∧
      ∀ row ∈ g, row.length = cols.length := by
  refine ⟨(cols.map GoVal.str) :: rs.map (convertRow cols.length), ?_, by simp, rfl, ?_⟩
  · simpa [convert] using
      scanLoop_all_ok cols.length rs [cols.map GoVal.str]
  · intro row hrow
    rcases List.mem_cons.mp hrow with h | h
    · subst h; simp
    · rcases List.mem_map.mp h with ⟨v, _, rfl⟩
      exact convertRow_length _ _

/-- C3 witness: the shape theorem at a one-column, one-row cursor: the
grid has two rows, the header first, each of length one. -/
theorem C3_grid_shape_witness :
    ∃ g, convert (Cursor.mk ["n"] [ScanOutcome.ok [GoVal.int 1]]) = Except.ok g ∧
      g.length = 2 ∧ g.head? = some [GoVal.str "n"] ∧
      ∀ row ∈ g, row.length = 1 := by
  simpa using C3_grid_shape ["n"] [[GoVal.int 1]]

/-- C4 counterexample: an integer cell value is placed in the grid as the
integer itself, not coerced to its string representation `"5"`, refuting
the part of the claim that says every non-string value is coerced to a
string before being placed in the grid; likewise a null cell value is
placed as the null value itself, not as the empty-cell (empty-string)
representation. -/
theorem C4_nonstring_not_coerced :
    convert (Cursor.mk ["n"] [ScanOutcome.ok [GoVal.int 5]]) =
      Except.ok [[GoVal.str "n"], [GoVal.int 5]] ∧
    GoVal.int 5 ≠ GoVal.str "5" ∧
    convert (Cursor.mk ["n"] [ScanOutcome.ok [GoVal.null]]) =
      Except.ok [[GoVal.str "n"], [GoVal.null]] ∧
    GoVal.null ≠ GoVal.str "" := by
  refine ⟨rfl, ?_, rfl, ?_⟩ <;> decide

/-- C4 (amended): on a well-formed cursor, every grid cell is the source
cell rendered by the rule: a raw byte sequence becomes its UTF-8 string
decoding, and every other value — null and non-string scalars included —
is placed unchanged; in particular a null cell stays the null cell value,
which is not the literal text `"null"`. -/
theorem C4_cell_rendering (cols : List String) (rs : List (List GoVal))
    (h : ∀ r ∈ rs, r.length = cols.length) :
    convert (Cursor.mk cols (rs.map ScanOutcome.ok)) =
      Except.ok ((cols.map GoVal.str) :: rs.map (fun r => r.map specCellRender)) ∧
    (∀ b, specCellRender (GoVal.bytes b) = GoVal.str (goStringOfBytes b)) ∧
    specCellRender GoVal.null = GoVal.null ∧
    GoVal.null ≠ GoVal.str "null" := by
  refine ⟨?_, fun b => rfl, rfl, by decide⟩
  have e : rs.map (convertRow cols.length) = rs.map (fun r => r.map specCellRender) := by
    apply List.map_congr_left
    intro r hr
    rw [← h r hr, convertRow_eq_map]
    exact List.map_congr_left (fun v _ => convertCell_eq_spec v)
  simpa [convert, e] using scanLoop_all_ok cols.length rs [cols.map GoVal.str]

/-- C4 witness: the amended rendering theorem applied to a concrete
two-column cursor holding a null and an integer: both pass through
unchanged, the header is the column names. -/
theorem C4_cell_rendering_witness :
    convert (Cursor.mk ["a", "b"] [ScanOutcome.ok [GoVal.null, GoVal.int 7]]) =
      Except.ok [[GoVal.str "a", GoVal.str "b"], [GoVal.null, GoVal.int 7]] := by
  have h := C4_cell_rendering ["a", "b"] [[GoVal.null, GoVal.int 7]] (by decide)
  simpa [specCellRender] using h.1

/-- C5 witness: the empty-cursor theorem at a concrete two-column
cursor: only the header row comes back, and not an error. -/
theorem C5_empty_result_ok_witness :
    convert (Cursor.mk ["x", "y"] []) =
      Except.ok [[GoVal.str "x", GoVal.str "y"]] := by
  simpa using C5_empty_result_ok ["x", "y"]

/-- C7: saving a token to the credential store and loading it back from
the same path returns a token equal to the original in all four fields,
for every starting file system, path and token. -/
theorem C7_save_load_roundtrip (fs : FS) (path : String) (t : Token) :
    tokenFromFile (saveToken fs path t) path = Except.ok t := by
  simp [tokenFromFile, saveToken, fsWrite, List.lookup, decode_encode_token]

/-- C7 witness: the round trip at a concrete token and an empty starting
file system returns the token with all four fields intact. -/
theorem C7_save_load_roundtrip_witness :
    tokenFromFile (saveToken [] "./cache.json" (Token.mk "acc" "Bearer" "ref" "2026-01-01T00:00:00Z"))
        "./cache.json" =
      Except.ok (Token.mk "acc" "Bearer" "ref" "2026-01-01T00:00:00Z") :=
  C7_save_load_roundtrip [] "./cache.json"
    (Token.mk "acc" "Bearer" "ref" "2026-01-01T00:00:00Z")

/-- C8: if the cache file loads as a credential, the client is built from
exactly that cached credential with no operator interaction and the file
system is untouched; a missing cache file and a cache file whose contents
are not credential JSON are treated identically — both trigger the
interactive bootstrap and persist the newly exchanged credential. -/
theorem C8_cache_load_paths (fs : FS) (web : Token) :
    (∀ t, tokenFromFile fs cacheFile = Except.ok t →
      getClient fs web = (t, false, fs)) ∧
    (List.lookup cacheFile fs = none →
      getClient fs web = (web, true, saveToken fs cacheFile web)) ∧
    (∀ s, List.lookup cacheFile fs = some (FileData.rawData s) →
      getClient fs web = (web, true, saveToken fs cacheFile web)) := by
  refine ⟨?_, ?_, ?_⟩
  · intro t h
    simp [getClient, h]
  · intro h
    simp [getClient, tokenFromFile, h]
  · intro s h
    simp [getClient, tokenFromFile, h]

/-- C8 witness: a cache file holding unparsable contents triggers the
bootstrap path: the web-exchanged token is used and persisted. -/
theorem C8_cache_load_paths_witness :
    getClient [(cacheFile, FileData.rawData "oops")] (Token.mk "a" "Bearer" "r" "e") =
      (Token.mk "a" "Bearer" "r" "e", true,
        saveToken [(cacheFile, FileData.rawData "oops")] cacheFile
          (Token.mk "a" "Bearer" "r" "e")) :=
  (C8_cache_load_paths [(cacheFile, FileData.rawData "oops")]
    (Token.mk "a" "Bearer" "r" "e")).2.2 "oops" rfl

/-- C10: when the cached credential loads successfully the run leaves the
cache file system unchanged — even when a silent refresh mints a new
access token during a later request — and conversely, any run that does
change the file system is an interactive-bootstrap run that wrote exactly
the newly exchanged credential to the cache path. -/
theorem C10_cache_write_frame (fs : FS) (web : Token) (refreshed : Option String) :
    (∀ t, tokenFromFile fs cacheFile = Except.ok t →
      (runSession fs web refreshed).2.2 = fs) ∧
    ((runSession fs web refreshed).2.2 ≠ fs →
      (runSession fs web refreshed).2.1 = true ∧
      (runSession fs web refreshed).2.2 = saveToken fs cacheFile web) := by
  constructor
  · intro t h
    simp [runSession, getClient, h]
  · intro hne
    cases h : tokenFromFile fs cacheFile with
    | ok t =>
      exact absurd (by simp [runSession, getClient, h]) hne
    | error e =>
      constructor <;> simp [runSession, getClient, h]

/-- C10 witness: with a validly cached credential and a silent refresh
occurring in the session, the file system after the run is exactly the
file system before it. -/
theorem C10_cache_write_frame_witness :
    (runSession [(cacheFile, FileData.jsonData (encodeToken (Token.mk "a" "b" "r" "e")))]
        (Token.mk "w" "b" "r" "e") (some "newAccess")).2.2 =
      [(cacheFile, FileData.jsonData (encodeToken (Token.mk "a" "b" "r" "e")))] :=
  (C10_cache_write_frame
      [(cacheFile, FileData.jsonData (encodeToken (Token.mk "a" "b" "r" "e")))]
      (Token.mk "w" "b" "r" "e") (some "newAccess")).1
    (Token.mk "a" "b" "r" "e") rfl

end GoToSheets
